import Mathlib

/- Verification of the ILIAS Pegasus mobile filesystem adapter layer:
   AbstractCordovaFilesystem (path resolution and the shared delete / exists /
   save / getDirectory / getFile operations), the AndroidFilesystem and
   IOSFilesystem open implementations, and CORDOVA_FILESYSTEM_FACTORY.
   The native cordova file plugin and the native viewers are opaque
   capability providers and are modelled abstractly. -/

/-- Model of JavaScript String.prototype.split with a one-character separator,
working on the character list of the string.  An empty input yields one empty
chunk, and a trailing separator yields a trailing empty chunk, exactly as in
JavaScript. -/
def splitChars (sep : Char) : List Char → List (List Char)
  | [] => [[]]
  | c :: rest =>
    let r := splitChars sep rest
    if c = sep then [] :: r
    else
      match r with
      | [] => [[c]]
      | s :: tail => (c :: s) :: tail

/-- Model of JavaScript path.split("/") on a Lean String. -/
def jsSplit (s : String) (sep : Char) : List String :=
  (splitChars sep s.toList).map (fun cs => String.mk cs)

/-- Return pair of AbstractCordovaFilesystem.getAbsolutePathInfo: the interface
PathTuple of the source, with fields absoluteBasePath and target. -/
structure PathTuple where
  absoluteBasePath : String
  target : String
  deriving Repr, DecidableEq

/-- Message of the IOError raised by getAbsolutePathInfo, built as the template
literal of the source builds it. -/
def invalidPathMsg (path targetName : String) : String :=
  "Invalid path, unable to extract directory/file name. Got path \"" ++ path ++
    "\" and directory/file \"" ++ targetName ++ "\"."

/-- Embedding of AbstractCordovaFilesystem.getAbsolutePathInfo.  The platform
base path (the abstract getFilesystemBasePath) is the first argument.  The
source builds the array [basePath, ...path.split("/")], pops its last element
into targetName, raises an IOError when targetName is not a string (pop on an
empty array, modelled by the none case of getLast?) or when its length is
greater than zero, and otherwise returns the popped array joined with "/"
together with targetName. -/
def getAbsolutePathInfo (basePath path : String) : Except String PathTuple :=
  let pathFolders : List String := basePath :: jsSplit path '/'
  match pathFolders.getLast? with
  | none => .error (invalidPathMsg path "undefined")
  | some targetName =>
    if targetName.length > 0 then
      .error (invalidPathMsg path targetName)
    else
      .ok { absoluteBasePath := String.intercalate "/" pathFolders.dropLast,
            target := targetName }

/-- State of the native device filesystem, the opaque capability behind the
cordova File plugin: an association of (directory, name) pairs to file contents
(byte buffers as lists of Nat), and a set of (directory, name) pairs that are
directories. -/
structure NativeFS where
  files : List ((String × String) × List Nat)
  dirs : List (String × String)
  deriving Repr, DecidableEq

/-- Model of the native File.checkFile capability: whether a file is present
under the given directory and name. -/
def checkFileFS (fs : NativeFS) (b t : String) : Bool :=
  fs.files.any (fun e => e.1 = (b, t))

/-- Model of the native File.checkDir capability: whether a directory is
present under the given directory and name. -/
def checkDirFS (fs : NativeFS) (b t : String) : Bool :=
  fs.dirs.any (fun e => e = (b, t))

/-- Model of the native File.writeFile capability with the option replace set
to true, as the source always passes it: the full buffer replaces any existing
content at the location. -/
def writeFileFS (fs : NativeFS) (b t : String) (data : List Nat) : NativeFS :=
  { files := ((b, t), data) :: fs.files.filter (fun e => e.1 ≠ (b, t)),
    dirs := fs.dirs }

/-- Model of the native File.removeRecursively capability: the file or
directory at the location is removed. -/
def removeRecursivelyFS (fs : NativeFS) (b t : String) : NativeFS :=
  { files := fs.files.filter (fun e => e.1 ≠ (b, t)),
    dirs := fs.dirs.filter (fun e => e ≠ (b, t)) }

/-- Representation of a native DirectoryEntry: the cordova plugin hands back an
entry identified by the directory url it was resolved from and the requested
directory name. -/
structure DirectoryEntryRepr where
  baseUrl : String
  name : String
  deriving Repr, DecidableEq

/-- Representation of a native FileEntry: the directory entry it was requested
from and the requested file name. -/
structure FileEntryRepr where
  directory : DirectoryEntryRepr
  name : String
  deriving Repr, DecidableEq

/-- Model of the native FileEntry.toURL. -/
def FileEntryRepr.toURL (f : FileEntryRepr) : String :=
  f.directory.baseUrl ++ "/" ++ f.directory.name ++ "/" ++ f.name

/-- One call into a native file or viewer capability; the operations below
record the native calls they issue, so that claims about "no native call is
made" are statements about an empty call list. -/
inductive NativeCall where
  | removeRecursively (b t : String)
  | checkFile (b t : String)
  | checkDir (b t : String)
  | writeFile (b t : String)
  | resolveDirectoryUrl (d : String)
  | getDirectory (d t : String)
  | getFile (dir : DirectoryEntryRepr) (t : String)
  | openerOpen (p ty : String)
  | previewFile (url : String)
  deriving Repr, DecidableEq

/-- Errors of the JavaScript layer: the IOError raised by path validation (it
carries only a message), the CantOpenFileTypeException, and an opaque native
error that may carry a numeric status field (the field of the Android
e.status === 9 check; none models an absent field). -/
inductive JSError where
  | ioError (msg : String)
  | cantOpenFileType (msg : String)
  | native (status : Option Int) (msg : String)
  deriving Repr, DecidableEq

/-- Reading the status property of a JavaScript error object: only the opaque
native errors carry one; on the other error kinds the access yields undefined,
modelled as none. -/
def JSError.status : JSError → Option Int
  | .native s _ => s
  | _ => none

/-- Embedding of AbstractCordovaFilesystem.delete: resolve the path, then
delegate to the native removeRecursively with the resolved base path and
target.  The result carries the new native filesystem state and the
RemoveResult success flag; the second component lists the native calls made. -/
def deleteT (basePath : String) (fs : NativeFS) (path : String) :
    Except JSError (NativeFS × Bool) × List NativeCall :=
  match getAbsolutePathInfo basePath path with
  | .error e => (.error (.ioError e), [])
  | .ok info =>
      (.ok (removeRecursivelyFS fs info.absoluteBasePath info.target, true),
       [.removeRecursively info.absoluteBasePath info.target])

/-- Embedding of AbstractCordovaFilesystem.exists: resolve the path, then
return checkFile(...) || checkDir(...).  The JavaScript disjunction
short-circuits: checkDir is only called when checkFile answered false. -/
def existsT (basePath : String) (fs : NativeFS) (path : String) :
    Except JSError Bool × List NativeCall :=
  match getAbsolutePathInfo basePath path with
  | .error e => (.error (.ioError e), [])
  | .ok info =>
      if checkFileFS fs info.absoluteBasePath info.target then
        (.ok true, [.checkFile info.absoluteBasePath info.target])
      else
        (.ok (checkDirFS fs info.absoluteBasePath info.target),
         [.checkFile info.absoluteBasePath info.target,
          .checkDir info.absoluteBasePath info.target])

/-- Embedding of AbstractCordovaFilesystem.save: resolve the path, then
delegate to the native writeFile with replace true.  The result carries the new
native filesystem state and the returned FileEntry, represented by the resolved
pair it was written at. -/
def saveT (basePath : String) (fs : NativeFS) (path : String) (data : List Nat) :
    Except JSError (NativeFS × PathTuple) × List NativeCall :=
  match getAbsolutePathInfo basePath path with
  | .error e => (.error (.ioError e), [])
  | .ok info =>
      (.ok (writeFileFS fs info.absoluteBasePath info.target data, info),
       [.writeFile info.absoluteBasePath info.target])

/-- Embedding of AbstractCordovaFilesystem.getDirectory: resolve the path,
resolve the directory url of the resolved base path, and request the directory
named by the resolved target from the native getDirectory (create false,
exclusive false). -/
def getDirectoryT (basePath : String) (path : String) :
    Except JSError DirectoryEntryRepr × List NativeCall :=
  match getAbsolutePathInfo basePath path with
  | .error e => (.error (.ioError e), [])
  | .ok info =>
      (.ok ⟨info.absoluteBasePath, info.target⟩,
       [.resolveDirectoryUrl info.absoluteBasePath,
        .getDirectory info.absoluteBasePath info.target])

/-- Embedding of AbstractCordovaFilesystem.getFile: resolve the path, then
obtain the containing directory by calling getDirectory ON THE RESOLVED
ABSOLUTE BASE PATH (which runs the base path through getAbsolutePathInfo a
second time), and request the file named by the resolved target from the native
getFile (create false, exclusive false). -/
def getFileT (basePath : String) (path : String) :
    Except JSError FileEntryRepr × List NativeCall :=
  match getAbsolutePathInfo basePath path with
  | .error e => (.error (.ioError e), [])
  | .ok info =>
      match getDirectoryT basePath info.absoluteBasePath with
      | (.error e, tr) => (.error e, tr)
      | (.ok dir, tr) => (.ok ⟨dir, info.target⟩, tr ++ [.getFile dir info.target])

/-- Message of the CantOpenFileTypeException raised by AndroidFilesystem.open
when the caught error carries status 9. -/
def androidCantOpenMsg : String :=
  "Unable to open existing file on Android because the file type is not supported."

/-- Body of the try block of AndroidFilesystem.open: resolve the path and hand
the joined string absoluteBasePath + "/" + target, with the type hint, to the
native fileOpener.open capability.  The opener is an abstract parameter: given
the full path and type it either succeeds or fails with a JavaScript error. -/
def androidOpenAttemptT (basePath : String)
    (opener : String → String → Except JSError Unit) (path ty : String) :
    Except JSError Unit × List NativeCall :=
  match getAbsolutePathInfo basePath path with
  | .error e => (.error (.ioError e), [])
  | .ok info =>
      (opener (info.absoluteBasePath ++ "/" ++ info.target) ty,
       [.openerOpen (info.absoluteBasePath ++ "/" ++ info.target) ty])

/-- Embedding of AndroidFilesystem.open: run the try block; on an error whose
status property is 9 raise the CantOpenFileTypeException, on any other error
rethrow the caught error unchanged. -/
def androidOpenT (basePath : String)
    (opener : String → String → Except JSError Unit) (path ty : String) :
    Except JSError Unit × List NativeCall :=
  match androidOpenAttemptT basePath opener path ty with
  | (.ok _, tr) => (.ok (), tr)
  | (.error e, tr) =>
      if e.status = some 9 then
        (.error (.cantOpenFileType androidCantOpenMsg), tr)
      else
        (.error e, tr)

/-- Event delivered by the native DocumentViewer.previewFileFromUrlOrPath
capability: it later invokes either the success callback with a message or the
failure callback with a numeric error code. -/
inductive PreviewEvent where
  | success (msg : String)
  | failure (errorCode : Int)
  deriving Repr, DecidableEq

/-- Settlement state, visible to the caller awaiting it, of the promise that
IOSFilesystem.previewFileFromUrlOrPath returns: still pending, resolved, or
rejected with an error. -/
inductive PromiseState where
  | pending
  | resolved
  | rejected (e : JSError)
  deriving Repr, DecidableEq

/-- Outcome of delivering one native preview event: the settlement state of the
promise the caller of open awaits, and the exception (if any) that escaped
inside the callback to its native invoker rather than to that caller. -/
structure PreviewOutcome where
  promise : PromiseState
  escapedInCallback : Option JSError
  deriving Repr, DecidableEq

/-- Message of the CantOpenFileTypeException thrown in the iOS failure
callback, embedding the native error code. -/
def iosCantOpenMsg (errorCode : Int) : String :=
  "Unable to open existing file on iOS with error code: \"" ++ toString errorCode ++ "\""

/-- Embedding of IOSFilesystem.previewFileFromUrlOrPath.  The promise executor
captures only the resolve function; reject is never bound.  When the native
layer later fires the success callback, resolve() runs and the promise
resolves.  When it fires the failure callback, the callback throws a
CantOpenFileTypeException embedding the error code; since reject was never
captured and the callback runs asynchronously outside the executor, the throw
cannot settle the promise: the promise stays pending and the exception escapes
only to the callback's native invoker. -/
def previewFileFromUrlOrPathT (event : PreviewEvent) : PreviewOutcome :=
  match event with
  | .success _ => { promise := .resolved, escapedInCallback := none }
  | .failure c =>
      { promise := .pending,
        escapedInCallback := some (.cantOpenFileType (iosCantOpenMsg c)) }

/-- Embedding of IOSFilesystem.open: obtain the FileEntry through getFile, take
its url, and invoke the native document preview on that url.  A synchronous
error of the getFile phase is raised to the caller (the error component); when
the preview is reached, the result records the preview outcome for the given
native event. -/
def iosOpenT (basePath : String) (path : String) (event : PreviewEvent) :
    Except JSError PreviewOutcome × List NativeCall :=
  match getFileT basePath path with
  | (.error e, tr) => (.error e, tr)
  | (.ok f, tr) =>
      (.ok (previewFileFromUrlOrPathT event), tr ++ [.previewFile f.toURL])

/-- Adapters the factory can produce. -/
inductive AdapterKind where
  | android
  | ios
  deriving Repr, DecidableEq

/-- Message of the error thrown by the factory when no platform matches. -/
def factoryErrorMsg : String :=
  "Cordova filesystem factory found no suitable implementation for the current platform."

/-- Embedding of CORDOVA_FILESYSTEM_FACTORY: query the platform predicate for
"android", then for "ios", and throw when neither matches.  The platform.is
query is an abstract boolean predicate on platform names. -/
def CORDOVA_FILESYSTEM_FACTORY (platformIs : String → Bool) :
    Except String AdapterKind :=
  if platformIs "android" then .ok .android
  else if platformIs "ios" then .ok .ios
  else .error factoryErrorMsg

/-- C1: the claim states that getAbsolutePathInfo raises an error precisely
when the popped terminal segment is missing or blank and returns a resolved
pair for every non-empty terminal segment.  The code does the opposite: with
base "/root", the path "a/b/c" (terminal segment "c" present and non-empty)
raises the IOError, while "a/b/" (terminal segment blank) succeeds. -/
theorem getAbsolutePathInfo_guard_inverted :
    getAbsolutePathInfo "/root" "a/b/c" = .error (invalidPathMsg "a/b/c" "c") ∧
    getAbsolutePathInfo "/root" "a/b/" = .ok ⟨"/root/a/b", ""⟩ :=
  ⟨rfl, rfl⟩

/-- C2: resolving "a/b/c" with platform base directory "/root" does not return
the pair (absoluteBasePath "/root/a/b", target "c") the claim asserts; the
inverted guard raises the IOError on the non-empty terminal segment "c". -/
theorem resolve_abc_raises_instead_of_pair :
    getAbsolutePathInfo "/root" "a/b/c" = .error (invalidPathMsg "a/b/c" "c") :=
  rfl

/-- C3: the claim states that resolution succeeds for every path with at least
one segment and a non-empty terminal segment.  In the code every such path
takes the error branch, shown on the one-segment path "c" and the three-segment
path "a/b/c"; the only paths that resolve are those whose terminal segment is
blank, such as "a/b/", for which the claimed invariants are moot. -/
theorem resolve_fails_on_nonempty_terminal :
    getAbsolutePathInfo "/root" "c" = .error (invalidPathMsg "c" "c") ∧
    getAbsolutePathInfo "/root" "a/b/c" = .error (invalidPathMsg "a/b/c" "c") ∧
    getAbsolutePathInfo "/root" "a/b/" = .ok ⟨"/root/a/b", ""⟩ :=
  ⟨rfl, rfl, rfl⟩

/-- C4: on every path the resolution accepts, exists returns ok of the boolean
"a file is present or a directory is present" at the resolved location: true
when either is present, false — not an error — when neither is. -/
theorem exists_returns_presence_bool (basePath : String) (fs : NativeFS)
    (path : String) (info : PathTuple)
    (h : getAbsolutePathInfo basePath path = .ok info) :
    (existsT basePath fs path).1 =
      .ok (checkFileFS fs info.absoluteBasePath info.target ||
           checkDirFS fs info.absoluteBasePath info.target) := by
  unfold existsT
  rw [h]
  cases hcf : checkFileFS fs info.absoluteBasePath info.target <;> simp [hcf]

/-- Witness for C4: on the empty native filesystem, the resolvable path "docs/"
yields ok false rather than an error. -/
theorem exists_returns_presence_bool_witness :
    (existsT "/root" ⟨[], []⟩ "docs/").1 = .ok false := by
  have h := exists_returns_presence_bool "/root" ⟨[], []⟩ "docs/"
    ⟨"/root/docs", ""⟩ rfl
  exact h.trans rfl

/-- C5: a successful save immediately followed by exists on the same path
returns true: the write registers the file at the resolved location, resolution
is deterministic, and the following checkFile finds it. -/
theorem save_then_exists_true (basePath : String) (fs : NativeFS) (path : String)
    (data : List Nat) (fs' : NativeFS) (entry : PathTuple) (tr : List NativeCall)
    (h : saveT basePath fs path data = (.ok (fs', entry), tr)) :
    (existsT basePath fs' path).1 = .ok true := by
  unfold saveT at h
  cases hres : getAbsolutePathInfo basePath path with
  | error e =>
      rw [hres] at h
      exact absurd h (by simp)
  | ok info =>
      rw [hres] at h
      simp only [Prod.mk.injEq, Except.ok.injEq] at h
      obtain ⟨⟨hfs, -⟩, -⟩ := h
      unfold existsT
      rw [hres]
      have hcf : checkFileFS fs' info.absoluteBasePath info.target = true := by
        rw [← hfs]
        simp [checkFileFS, writeFileFS]
      simp [hcf]

/-- Witness for C5: saving the buffer [7] at "notes/" on the empty filesystem
produces a state on which exists "notes/" returns true. -/
theorem save_then_exists_true_witness :
    (existsT "/root" ⟨[(("/root/notes", ""), [7])], []⟩ "notes/").1 = .ok true :=
  save_then_exists_true "/root" ⟨[], []⟩ "notes/" [7]
    ⟨[(("/root/notes", ""), [7])], []⟩ ⟨"/root/notes", ""⟩
    [.writeFile "/root/notes" ""] rfl

/-- C6: AndroidFilesystem.open raises the CantOpenFileTypeException exactly
when the error produced by the try block (the open attempt) carries status 9;
any other error of the attempt is rethrown unchanged, and a successful attempt
succeeds.  The call list of the attempt is preserved unchanged either way. -/
theorem android_open_status_mapping (basePath : String)
    (opener : String → String → Except JSError Unit) (path ty : String) :
    (∀ e tr, androidOpenAttemptT basePath opener path ty = (.error e, tr) →
       androidOpenT basePath opener path ty =
         ((if e.status = some 9 then
             .error (.cantOpenFileType androidCantOpenMsg)
           else
             .error e), tr)) ∧
    (∀ tr, androidOpenAttemptT basePath opener path ty = (.ok (), tr) →
       androidOpenT basePath opener path ty = (.ok (), tr)) := by
  constructor
  · intro e tr h
    unfold androidOpenT
    rw [h]
    by_cases hs : e.status = some 9 <;> simp [hs]
  · intro tr h
    unfold androidOpenT
    rw [h]

/-- Witness for C6: with base "/root" and path "f/", an opener failing with
native status 9 is translated to the CantOpenFileTypeException, while one
failing with native status 3 propagates unchanged. -/
theorem android_open_status_mapping_witness :
    androidOpenT "/root" (fun _ _ => .error (.native (some 9) "nope")) "f/" "" =
      (.error (.cantOpenFileType androidCantOpenMsg), [.openerOpen "/root/f/" ""]) ∧
    androidOpenT "/root" (fun _ _ => .error (.native (some 3) "nope")) "f/" "" =
      (.error (.native (some 3) "nope"), [.openerOpen "/root/f/" ""]) := by
  constructor
  · exact ((android_open_status_mapping "/root"
      (fun _ _ => .error (.native (some 9) "nope")) "f/" "").1
      (.native (some 9) "nope") [.openerOpen "/root/f/" ""] rfl).trans rfl
  · exact ((android_open_status_mapping "/root"
      (fun _ _ => .error (.native (some 3) "nope")) "f/" "").1
      (.native (some 3) "nope") [.openerOpen "/root/f/" ""] rfl).trans rfl

/-- Counterexample for C7: on base "/root" and the resolvable path "a//", when
the native failure callback fires with error code 5, the promise returned by
open is still pending — it was not rejected, so no CantOpenFileTypeException
reaches the caller of open; the exception only escaped inside the callback to
its native invoker, because the executor never captured the reject function. -/
theorem ios_open_failure_not_raised_to_caller :
    (iosOpenT "/root" "a//" (.failure 5)).1 =
      .ok { promise := .pending,
            escapedInCallback := some (.cantOpenFileType (iosCantOpenMsg 5)) } ∧
    PromiseState.pending ≠
      PromiseState.rejected (.cantOpenFileType (iosCantOpenMsg 5)) := by
  exact ⟨rfl, by simp⟩

/-- C7 as amended: when the getFile phase succeeds, the success callback
resolves the promise of open, and the failure callback throws the
CantOpenFileTypeException embedding the native error code inside the callback
only: the promise stays pending and nothing is raised to the caller of open. -/
theorem ios_open_callback_outcomes (basePath path : String) (event : PreviewEvent)
    (f : FileEntryRepr) (tr : List NativeCall)
    (h : getFileT basePath path = (.ok f, tr)) :
    (∀ msg, event = .success msg →
       (iosOpenT basePath path event).1 = .ok ⟨.resolved, none⟩) ∧
    (∀ c, event = .failure c →
       (iosOpenT basePath path event).1 =
         .ok ⟨.pending, some (.cantOpenFileType (iosCantOpenMsg c))⟩) := by
  constructor
  · intro msg hev
    subst hev
    unfold iosOpenT
    rw [h]
    rfl
  · intro c hev
    subst hev
    unfold iosOpenT
    rw [h]
    rfl

/-- Witness for C7: on base "/root" and path "a//" the success event resolves
the promise and the failure event with code 9 leaves it pending with the
exception escaped inside the callback. -/
theorem ios_open_callback_outcomes_witness :
    (iosOpenT "/root" "a//" (.success "ok")).1 = .ok ⟨.resolved, none⟩ ∧
    (iosOpenT "/root" "a//" (.failure 9)).1 =
      .ok ⟨.pending, some (.cantOpenFileType (iosCantOpenMsg 9))⟩ := by
  constructor
  · exact (ios_open_callback_outcomes "/root" "a//" (.success "ok")
      ⟨⟨"/root//root/a", ""⟩, ""⟩
      [.resolveDirectoryUrl "/root//root/a", .getDirectory "/root//root/a" "",
       .getFile ⟨"/root//root/a", ""⟩ ""] rfl).1 "ok" rfl
  · exact (ios_open_callback_outcomes "/root" "a//" (.failure 9)
      ⟨⟨"/root//root/a", ""⟩, ""⟩
      [.resolveDirectoryUrl "/root//root/a", .getDirectory "/root//root/a" "",
       .getFile ⟨"/root//root/a", ""⟩ ""] rfl).2 9 rfl

/-- C8: the factory, queried with the single platform identity, returns the
Android adapter for identity "android", the iOS adapter for identity "ios",
and throws the configuration error for every other identity — there is no
default or fallback adapter. -/
theorem factory_selects_by_identity (identity : String) :
    (identity = "android" →
       CORDOVA_FILESYSTEM_FACTORY (fun s => identity == s) = .ok .android) ∧
    (identity = "ios" →
       CORDOVA_FILESYSTEM_FACTORY (fun s => identity == s) = .ok .ios) ∧
    (identity ≠ "android" → identity ≠ "ios" →
       CORDOVA_FILESYSTEM_FACTORY (fun s => identity == s) = .error factoryErrorMsg) := by
  refine ⟨?_, ?_, ?_⟩
  · intro h
    subst h
    rfl
  · intro h
    subst h
    rfl
  · intro h1 h2
    unfold CORDOVA_FILESYSTEM_FACTORY
    simp [h1, h2]

/-- Witness for C8: the three branches at the identities "android", "ios" and
"windows". -/
theorem factory_selects_by_identity_witness :
    CORDOVA_FILESYSTEM_FACTORY (fun s => "android" == s) = .ok .android ∧
    CORDOVA_FILESYSTEM_FACTORY (fun s => "ios" == s) = .ok .ios ∧
    CORDOVA_FILESYSTEM_FACTORY (fun s => "windows" == s) = .error factoryErrorMsg :=
  ⟨(factory_selects_by_identity "android").1 rfl,
   (factory_selects_by_identity "ios").2.1 rfl,
   (factory_selects_by_identity "windows").2.2 (by decide) (by decide)⟩

/-- C9: on every path the resolution rejects, delete, exists, save and the two
platform open operations all raise the path-validation IOError (Android open
rethrows it unchanged since its status is not 9) with an empty native call
list, and neither delete nor save returns any new filesystem state: nothing is
touched before the validation error is raised. -/
theorem invalid_path_raises_before_native (basePath : String) (fs : NativeFS)
    (path ty : String) (data : List Nat)
    (opener : String → String → Except JSError Unit) (event : PreviewEvent)
    (e : String) (h : getAbsolutePathInfo basePath path = .error e) :
    deleteT basePath fs path = (.error (.ioError e), []) ∧
    existsT basePath fs path = (.error (.ioError e), []) ∧
    saveT basePath fs path data = (.error (.ioError e), []) ∧
    androidOpenT basePath opener path ty = (.error (.ioError e), []) ∧
    iosOpenT basePath path event = (.error (.ioError e), []) := by
  refine ⟨?_, ?_, ?_, ?_, ?_⟩
  · unfold deleteT
    rw [h]
  · unfold existsT
    rw [h]
  · unfold saveT
    rw [h]
  · unfold androidOpenT androidOpenAttemptT
    rw [h]
    rfl
  · unfold iosOpenT getFileT
    rw [h]

/-- Witness for C9: the path "a/b/c" fails the (inverted) validity check, and
all five operations raise the IOError without a native call. -/
theorem invalid_path_raises_before_native_witness :
    deleteT "/root" ⟨[], []⟩ "a/b/c" =
      (.error (.ioError (invalidPathMsg "a/b/c" "c")), []) ∧
    existsT "/root" ⟨[], []⟩ "a/b/c" =
      (.error (.ioError (invalidPathMsg "a/b/c" "c")), []) ∧
    saveT "/root" ⟨[], []⟩ "a/b/c" [] =
      (.error (.ioError (invalidPathMsg "a/b/c" "c")), []) ∧
    androidOpenT "/root" (fun _ _ => .ok ()) "a/b/c" "" =
      (.error (.ioError (invalidPathMsg "a/b/c" "c")), []) ∧
    iosOpenT "/root" "a/b/c" (.success "m") =
      (.error (.ioError (invalidPathMsg "a/b/c" "c")), []) :=
  invalid_path_raises_before_native "/root" ⟨[], []⟩ "a/b/c" "" []
    (fun _ _ => .ok ()) (.success "m") (invalidPathMsg "a/b/c" "c") rfl

/-- C10: whenever the resolution of a path succeeds with the pair info, and the
resolution of info.absoluteBasePath (which prepends the platform base directory
a second time) succeeds with info2, getFile requests the containing directory
at info2 — the double resolution — and not at info.absoluteBasePath itself. -/
theorem getFile_resolves_base_twice (basePath path : String)
    (info info2 : PathTuple)
    (h1 : getAbsolutePathInfo basePath path = .ok info)
    (h2 : getAbsolutePathInfo basePath info.absoluteBasePath = .ok info2) :
    getFileT basePath path =
      (.ok ⟨⟨info2.absoluteBasePath, info2.target⟩, info.target⟩,
       [.resolveDirectoryUrl info2.absoluteBasePath,
        .getDirectory info2.absoluteBasePath info2.target,
        .getFile ⟨info2.absoluteBasePath, info2.target⟩ info.target]) := by
  simp only [getFileT, getDirectoryT, h1, h2]
  rfl

/-- Witness for C10: with base "/root", the path "a//" resolves to the base
path "/root/a/"; getFile then resolves "/root/a/" again, prepending "/root" a
second time, and looks the directory up at "/root//root/a", which differs from
"/root/a/". -/
theorem getFile_resolves_base_twice_witness :
    getFileT "/root" "a//" =
      (.ok ⟨⟨"/root//root/a", ""⟩, ""⟩,
       [.resolveDirectoryUrl "/root//root/a", .getDirectory "/root//root/a" "",
        .getFile ⟨"/root//root/a", ""⟩ ""]) ∧
    ("/root//root/a" : String) ≠ "/root/a/" :=
  ⟨getFile_resolves_base_twice "/root" "a//" ⟨"/root/a/", ""⟩
     ⟨"/root//root/a", ""⟩ rfl rfl,
   by decide⟩
